import Mathlib

/-!
Verification of the driver and monitor layer of the yaAGC Block-1
(Pultorak) simulator, as given in AGCmain.cpp and MON.cpp: the
control-pulse dispatch of genAGCStates, the bus clearing discipline, the
driver loop batching, the breakpoint check, the monitor commands, the
memory loader and the display flag decoding.
-/

/-- Control pulses as dispatched by genAGCStates.  The full pulse
enumeration lives in a header that is not among the given sources; the
dispatch loops in AGCmain.cpp only distinguish the terminator NO_PULSE
from real pulses, so real pulses are abstracted as numbered. -/
inductive pulseType where
  | NO_PULSE
  | P (n : Nat)
deriving DecidableEq

/-- Modelled from the spec: MAXPULSES, the capacity of the glbl_cp pulse
list ("bounded by MAXPULSES (≈ 32)"); its defining header is not among
the given sources. -/
def MAXPULSES : Nat := 32

/-- Pulses executed by one dispatch sweep of genAGCStates, from the loop
header `for (i = 0; i < MAXPULSES && SEQ::glbl_cp[i] != NO_PULSE; i++)`
(AGCmain.cpp lines 208, 215, 220, 227): the entries preceding the first
NO_PULSE, looking at no more than the first MAXPULSES entries. -/
def executedPulses (cp : List pulseType) : List pulseType :=
  (cp.take MAXPULSES).takeWhile fun p => decide (p ≠ pulseType.NO_PULSE)

/-- State touched directly by genAGCStates: the OR-tied buses
BUS::glbl_READ_BUS and BUS::glbl_WRITE_BUS, the memory buses
MEM::MEM_DATA_BUS and MEM::MEM_PARITY_BUS, and the ALU summing node
ALU::glbl_BUS.  The field rest packs all remaining machine state
(registers, memory, scaler, timing generator), which genAGCStates touches
only through the dispatched handlers. -/
structure AGCState (ρ : Type) where
  READ_BUS : Nat
  WRITE_BUS : Nat
  MEM_DATA_BUS : Nat
  MEM_PARITY_BUS : Nat
  ALU_BUS : Nat
  rest : ρ

/-- Handlers dispatched by genAGCStates (AGCmain.cpp lines 210, 217, 222,
229, 233-237).  Their bodies live in CLK.cpp, SCL.cpp and TPG.cpp, which
are not among the given sources, so they are parameters of the model. -/
structure Handlers (ρ : Type) where
  doexecR : pulseType → AGCState ρ → AGCState ρ
  doexecR_ALU : pulseType → AGCState ρ → AGCState ρ
  doexecR_ALU_OR : pulseType → AGCState ρ → AGCState ρ
  doexecW : pulseType → AGCState ρ → AGCState ρ
  doexecWP_SCL : AGCState ρ → AGCState ρ
  doexecWP_F17 : AGCState ρ → AGCState ρ
  doexecWP_F13 : AGCState ρ → AGCState ρ
  doexecWP_F10 : AGCState ρ → AGCState ρ
  doexecWP_TPG : AGCState ρ → AGCState ρ

/-- One dispatch sweep of genAGCStates: fold the given handler over the
pulses before the NO_PULSE terminator (AGCmain.cpp lines 207-230). -/
def sweep {ρ : Type} (h : pulseType → AGCState ρ → AGCState ρ)
    (cp : List pulseType) (s : AGCState ρ) : AGCState ρ :=
  (executedPulses cp).foldl (fun t p => h p t) s

/-- Bus clearing at the top of genAGCStates (AGCmain.cpp lines 200-202):
READ_BUS, MEM_DATA_BUS and MEM_PARITY_BUS are zeroed before any pulse is
dispatched. -/
def clearBuses {ρ : Type} (s : AGCState ρ) : AGCState ρ :=
  { s with READ_BUS := 0, MEM_DATA_BUS := 0, MEM_PARITY_BUS := 0 }

/-- State after the read sweep (AGCmain.cpp lines 207-211). -/
def readSweepState {ρ : Type} (H : Handlers ρ) (cp : List pulseType)
    (s : AGCState ρ) : AGCState ρ :=
  sweep H.doexecR cp (clearBuses s)

/-- State after clearing ALU::glbl_BUS and running the ALU read sweep
(AGCmain.cpp lines 214-218). -/
def aluSweepState {ρ : Type} (H : Handlers ρ) (cp : List pulseType)
    (s : AGCState ρ) : AGCState ρ :=
  sweep H.doexecR_ALU cp { readSweepState H cp s with ALU_BUS := 0 }

/-- State after `BUS::glbl_WRITE_BUS = BUS::glbl_READ_BUS` (AGCmain.cpp
line 219), just before the ALU-OR sweep. -/
def orSweepInit {ρ : Type} (H : Handlers ρ) (cp : List pulseType)
    (s : AGCState ρ) : AGCState ρ :=
  { aluSweepState H cp s with WRITE_BUS := (aluSweepState H cp s).READ_BUS }

/-- State after the ALU-OR sweep (AGCmain.cpp lines 220-223). -/
def orSweepState {ρ : Type} (H : Handlers ρ) (cp : List pulseType)
    (s : AGCState ρ) : AGCState ρ :=
  sweep H.doexecR_ALU_OR cp (orSweepInit H cp s)

/-- State after the write sweep (AGCmain.cpp lines 227-230). -/
def writeSweepState {ρ : Type} (H : Handlers ρ) (cp : List pulseType)
    (s : AGCState ρ) : AGCState ρ :=
  sweep H.doexecW cp (orSweepState H cp s)

/-- Translation of genAGCStates (AGCmain.cpp lines 181-238): clear the
buses, run the four dispatch sweeps in order, then always execute the
scaler pulses WP_SCL, WP_F17, WP_F13, WP_F10 and finally WP_TPG.  The
control-pulse list cp stands for SEQ::glbl_cp as rebuilt by
CPM::controlPulseMatrix() at the top of the function (the matrix itself
is not among the given sources). -/
def genAGCStates {ρ : Type} (H : Handlers ρ) (cp : List pulseType)
    (s : AGCState ρ) : AGCState ρ :=
  H.doexecWP_TPG (H.doexecWP_F10 (H.doexecWP_F13 (H.doexecWP_F17
    (H.doexecWP_SCL (writeSweepState H cp s)))))

/-- Observable events of one genAGCStates call, used to state the
dispatch order. -/
inductive sweepEvent where
  | execR (p : pulseType)
  | execR_ALU (p : pulseType)
  | execR_ALU_OR (p : pulseType)
  | execW (p : pulseType)
  | WP_SCL
  | WP_F17
  | WP_F13
  | WP_F10
  | WP_TPG

/-- Instrumentation: a pulse handler that only appends its event to the
log carried in the rest component. -/
def logPulse (f : pulseType → sweepEvent) :
    pulseType → AGCState (List sweepEvent) → AGCState (List sweepEvent) :=
  fun p s => { s with rest := s.rest ++ [f p] }

/-- Instrumentation: a pulse-free handler that only appends its event to
the log carried in the rest component. -/
def logPlain (e : sweepEvent) :
    AGCState (List sweepEvent) → AGCState (List sweepEvent) :=
  fun s => { s with rest := s.rest ++ [e] }

/-- The logging handler assignment: every dispatch target records its
invocation. -/
def logHandlers : Handlers (List sweepEvent) :=
  { doexecR := logPulse sweepEvent.execR
    doexecR_ALU := logPulse sweepEvent.execR_ALU
    doexecR_ALU_OR := logPulse sweepEvent.execR_ALU_OR
    doexecW := logPulse sweepEvent.execW
    doexecWP_SCL := logPlain sweepEvent.WP_SCL
    doexecWP_F17 := logPlain sweepEvent.WP_F17
    doexecWP_F13 := logPlain sweepEvent.WP_F13
    doexecWP_F10 := logPlain sweepEvent.WP_F10
    doexecWP_TPG := logPlain sweepEvent.WP_TPG }

/-- Initial instrumented state with an empty log. -/
def traceInit : AGCState (List sweepEvent) :=
  { READ_BUS := 0, WRITE_BUS := 0, MEM_DATA_BUS := 0, MEM_PARITY_BUS := 0
    ALU_BUS := 0, rest := [] }

/-- The sequence of dispatch events performed by one call of
genAGCStates on a given control-pulse list. -/
def agcTrace (cp : List pulseType) : List sweepEvent :=
  (genAGCStates logHandlers cp traceInit).rest

/-- Transparency of a handler to the write bus: it neither reads nor
writes WRITE_BUS.  Per the spec, the read sweep drives only READ_BUS and
the memory buses, and the ALU read sweep composes only ALU::glbl_BUS. -/
def WBtransparent {ρ : Type} (h : pulseType → AGCState ρ → AGCState ρ) : Prop :=
  ∀ p s w, h p { s with WRITE_BUS := w } = { h p s with WRITE_BUS := w }

/-- Modelled from the spec: SEQ::glbl_cp as written by
CPM::controlPulseMatrix() (not among the given sources): a
NO_PULSE-terminated array of MAXPULSES entries, the actual pulses ps
followed by NO_PULSE padding. -/
def glbl_cp_model (ps : List pulseType) : List pulseType :=
  ps ++ List.replicate (MAXPULSES - ps.length) pulseType.NO_PULSE

/-- Modelled from the spec: the timing-pulse generator state set PWRON,
STBY, WAIT, TP1..TP12 (TPG.h is not among the given sources); the driver
logic only compares register_SG against named states. -/
inductive tpType where
  | PWRON
  | STBY
  | WAIT
  | TP1
  | TP2
  | TP3
  | TP4
  | TP5
  | TP6
  | TP7
  | TP8
  | TP9
  | TP10
  | TP11
  | TP12
deriving DecidableEq

/-- Translation of the breakpoint check in the driver loop (AGCmain.cpp
lines 687-691): whenever the breakpoint is enabled and equals the current
effective address, MON::RUN is forced to 0.  The timing-pulse state sg is
passed to exhibit that it plays no part in the decision. -/
def breakpointCheck (enab : Bool) (breakpoint cadr : Nat) (sg : tpType)
    (run : Nat) : Nat :=
  if enab ∧ breakpoint = cadr then 0 else run

/-- Modelled from the spec: the intended breakpoint behavior described in
the design notes, break only when CADR equals the breakpoint at TP1 of a
new instruction (sni = 1 marking the new instruction). -/
def breakpointCheckSpec (enab : Bool) (breakpoint cadr : Nat) (sg : tpType)
    (sni run : Nat) : Nat :=
  if enab ∧ breakpoint = cadr ∧ sg = tpType.TP1 ∧ sni = 1 then 0 else run

/-- Monitor switch variables of the MON subsystem (MON.h/MON.cpp). -/
structure monSwitches where
  PURST : Nat
  RUN : Nat
  STEP : Nat
  INST : Nat
  FCLK : Nat
  SA : Nat
  SCL_ENAB : Nat

/-- Translation of the static initializers of the monitor input
variables (MON.cpp lines 44-52). -/
def monInit : monSwitches :=
  { PURST := 1, RUN := 0, STEP := 0, INST := 1, FCLK := 0, SA := 0
    SCL_ENAB := 1 }

/-- Tokens of a memory object file as consumed by fscanf with format
"%o %o": an octal numeral, or a junk token that no %o conversion can
match. -/
inductive objToken where
  | num (v : Nat)
  | junk
deriving DecidableEq

/-- Translation of the record-reading loop of loadMemory (AGCmain.cpp
lines 373-379): `while (fscanf(fp, "%o %o", &addr, &data) != EOF)
MEM::writeMemory(addr, data);`.  The result is the list of
MEM::writeMemory calls issued (address, data), paired with true when the
loop terminates.  Parameters a and d carry the current values of the
stack variables addr and data (uninitialized at the first call); fscanf
leaves them stale on a failed conversion.  A junk token at the head makes
fscanf return 0 without consuming input, so the loop repeats the same
write forever (terminates = false); a numeral followed by junk or by end
of file makes fscanf return 1, writing the parsed address with stale
data. -/
def loadLoop : List objToken → Nat → Nat → List (Nat × Nat) × Bool
  | [], _, _ => ([], true)
  | objToken.junk :: _, a, d => ([(a, d)], false)
  | [objToken.num a], _, d => ([(a, d)], true)
  | objToken.num a :: objToken.junk :: _, _, d => ([(a, d)], false)
  | objToken.num a :: objToken.num v :: rest, _, _ =>
      let r := loadLoop rest a v
      ((a, v) :: r.1, r.2)

/-- Translation of loadMemory (AGCmain.cpp lines 354-381): none stands
for a file that cannot be opened, in which case the error is reported and
the function returns with no writeMemory calls; otherwise the record loop
runs on the file contents. -/
def loadMemory (file : Option (List objToken)) (a0 d0 : Nat) :
    List (Nat × Nat) × Bool :=
  match file with
  | none => ([], true)
  | some toks => loadLoop toks a0 d0

/-- Well-formedness of an object file per the spec: a sequence of
address/data records, each two octal numerals. -/
def wellFormedObj : List objToken → Bool
  | [] => true
  | objToken.num _ :: objToken.num _ :: rest => wellFormedObj rest
  | _ => false

/-- Records of a well-formed object file as address/data pairs. -/
def objPairs : List objToken → List (Nat × Nat)
  | objToken.num a :: objToken.num v :: rest => (a, v) :: objPairs rest
  | _ => []

/-- Translation of interrupt() (AGCmain.cpp lines 342-351): parse the
entered priority, subtract one, and set that rupt cell, with no range
check.  INT::rupt is declared outside the given sources; the write is
modelled as a pointwise update of an Int-indexed map, mirroring unchecked
C array indexing. -/
def interrupt (p : Int) (rupt : Int → Nat) : Int → Nat :=
  fun j => if j = p - 1 then 1 else rupt j

/-- Translation of incrCntr() (AGCmain.cpp lines 320-329): parse the
entered cell number and set that pcUp cell, with no range check. -/
def incrCntr (k : Int) (pcUp : Int → Nat) : Int → Nat :=
  fun j => if j = k then 1 else pcUp j

/-- Translation of decrCntr() (AGCmain.cpp lines 331-340): parse the
entered cell number and set that pcDn cell, with no range check. -/
def decrCntr (k : Int) (pcDn : Int → Nat) : Int → Nat :=
  fun j => if j = k then 1 else pcDn j

/-- Modelled from the spec: the declared extent of INT::rupt, five cells
rupt[0..4] (the declaration lives in INT.h, not among the given
sources). -/
def RUPT_CELLS : Int := 5

/-- Modelled from the spec: the declared extent of CTR::pcUp and
CTR::pcDn, seven cells each, indices 0..6 (the declarations live in
CTR.h, not among the given sources). -/
def PC_CELLS : Int := 7

/-- Translation of the inner clocking loop of main (AGCmain.cpp lines
675-706): `int genStateCntr = 100; do { ...tick...; genStateCntr--; }
while (MON::FCLK && MON::RUN && genStateCntr > 0);`.  The function step
is one tick (CLK::clkAGC followed by genAGCStates and the breakpoint and
watch checks), cond reads the switches MON::FCLK and MON::RUN from the
post-tick state, and the Nat argument is the batch counter.  The result
counts the ticks performed and gives the final state. -/
def innerLoop {σ : Type} (step : σ → σ) (cond : σ → Bool) :
    Nat → σ → Nat × σ
  | 0, s => (1, step s)
  | 1, s => (1, step s)
  | Nat.succ (Nat.succ m), s =>
      let t := step s
      if cond t then
        let r := innerLoop step cond (Nat.succ m) t
        (r.1 + 1, r.2)
      else (1, t)

/-- Panel indicator flags decoded from register OUT1. -/
structure out1Flags where
  comp : Bool
  upTl : Bool
  keyRels : Bool
  compFail : Bool
  progAlm : Bool

/-- Translation of the indicator-flag computations in MON::displayAGC
(MON.cpp lines 118-137): each flag is lit exactly when the corresponding
octal mask of OUT1 is nonzero. -/
def displayAGCFlags (out1 : Nat) : out1Flags :=
  { comp := out1 &&& 0o1 != 0
    upTl := out1 &&& 0o4 != 0
    keyRels := out1 &&& 0o20 != 0
    compFail := out1 &&& 0o100 != 0
    progAlm := out1 &&& 0o400 != 0 }

/-- Translation of the poll-point STEP clearing (AGCmain.cpp lines
711-714): `if (MON::STEP && TPG::register_SG.read() == TP1)
MON::STEP = 0;`. -/
def stepSwitchPoll (step : Nat) (sg : tpType) : Nat :=
  if step ≠ 0 ∧ sg = tpType.TP1 then 0 else step

/-- Fixed example state over a trivial rest component, used to
instantiate the generic theorems. -/
def unitState : AGCState Unit :=
  { READ_BUS := 0, WRITE_BUS := 0, MEM_DATA_BUS := 0, MEM_PARITY_BUS := 0
    ALU_BUS := 0, rest := () }

/-- Fixed example handlers over a trivial rest component: each read-class
handler drives a bit onto its bus, the write handler latches the write
bus into nothing (identity), and the always-executed pulses are
identities. -/
def unitHandlers : Handlers Unit :=
  { doexecR := fun _ t => { t with READ_BUS := t.READ_BUS ||| 1 }
    doexecR_ALU := fun _ t => { t with ALU_BUS := t.ALU_BUS ||| 2 }
    doexecR_ALU_OR := fun _ t => { t with WRITE_BUS := t.WRITE_BUS ||| 4 }
    doexecW := fun _ t => t
    doexecWP_SCL := fun t => t
    doexecWP_F17 := fun t => t
    doexecWP_F13 := fun t => t
    doexecWP_F10 := fun t => t
    doexecWP_TPG := fun t => t }

/-- Folding a logging pulse handler over a pulse list appends the pulse
events, in list order, to the log. -/
theorem foldl_logPulse (f : pulseType → sweepEvent) (l : List pulseType) :
    ∀ s : AGCState (List sweepEvent),
      List.foldl (fun t p => logPulse f p t) s l =
        { s with rest := s.rest ++ l.map f } := by
  induction l with
  | nil =>
      intro s
      cases s
      simp
  | cons a l ih =>
      intro s
      cases s
      simp only [List.foldl_cons]
      rw [ih]
      simp [logPulse]

/-- One logging sweep appends exactly the executed pulses, mapped to
their events, to the log. -/
theorem sweep_logPulse (f : pulseType → sweepEvent) (cp : List pulseType)
    (s : AGCState (List sweepEvent)) :
    sweep (logPulse f) cp s =
      { s with rest := s.rest ++ (executedPulses cp).map f } := by
  unfold sweep
  exact foldl_logPulse f (executedPulses cp) s

/-- C1: in every call of genAGCStates the four sweeps over the
control-pulse list run in the fixed order read (doexecR), ALU read
(doexecR_ALU), ALU OR (doexecR_ALU_OR), write (doexecW); only after all
four sweeps do the scaler pulses WP_SCL, WP_F17, WP_F13, WP_F10 run, and
WP_TPG runs last. -/
theorem genAGCStates_sweep_order (cp : List pulseType) :
    agcTrace cp =
      (executedPulses cp).map sweepEvent.execR ++
      (executedPulses cp).map sweepEvent.execR_ALU ++
      (executedPulses cp).map sweepEvent.execR_ALU_OR ++
      (executedPulses cp).map sweepEvent.execW ++
      [sweepEvent.WP_SCL, sweepEvent.WP_F17, sweepEvent.WP_F13,
       sweepEvent.WP_F10, sweepEvent.WP_TPG] := by
  unfold agcTrace genAGCStates writeSweepState orSweepState orSweepInit
    aluSweepState readSweepState clearBuses
  simp [logHandlers, sweep_logPulse, logPlain, traceInit, List.append_assoc]

/-- Folding a WRITE_BUS-transparent handler over a pulse list commutes
with overriding WRITE_BUS. -/
theorem foldl_WBtransparent {ρ : Type} (h : pulseType → AGCState ρ → AGCState ρ)
    (ht : WBtransparent h) (l : List pulseType) :
    ∀ (s : AGCState ρ) (w : Nat),
      List.foldl (fun t p => h p t) { s with WRITE_BUS := w } l =
        { List.foldl (fun t p => h p t) s l with WRITE_BUS := w } := by
  induction l with
  | nil => intro s w; rfl
  | cons a l ih =>
      intro s w
      simp only [List.foldl_cons]
      rw [ht a s w, ih]

/-- The state reaching the WRITE_BUS initialization (line 219) does not
depend on the bus values genAGCStates received, provided the read and
ALU-read handlers are WRITE_BUS-transparent: READ_BUS and the memory
buses are cleared up front, and WRITE_BUS is overwritten here. -/
theorem orSweepInit_fresh {ρ : Type} (H : Handlers ρ) (cp : List pulseType)
    (s : AGCState ρ) (r w m q : Nat)
    (hR : WBtransparent H.doexecR) (hA : WBtransparent H.doexecR_ALU) :
    orSweepInit H cp
        { s with READ_BUS := r, WRITE_BUS := w, MEM_DATA_BUS := m,
                 MEM_PARITY_BUS := q }
      = orSweepInit H cp s := by
  have h1 : clearBuses
      { s with READ_BUS := r, WRITE_BUS := w, MEM_DATA_BUS := m,
               MEM_PARITY_BUS := q }
      = { clearBuses s with WRITE_BUS := w } := rfl
  have h2 : readSweepState H cp
      { s with READ_BUS := r, WRITE_BUS := w, MEM_DATA_BUS := m,
               MEM_PARITY_BUS := q }
      = { readSweepState H cp s with WRITE_BUS := w } := by
    unfold readSweepState sweep
    rw [h1]
    exact foldl_WBtransparent H.doexecR hR (executedPulses cp) (clearBuses s) w
  have h3 : aluSweepState H cp
      { s with READ_BUS := r, WRITE_BUS := w, MEM_DATA_BUS := m,
               MEM_PARITY_BUS := q }
      = { aluSweepState H cp s with WRITE_BUS := w } := by
    unfold aluSweepState sweep
    rw [h2]
    exact foldl_WBtransparent H.doexecR_ALU hA (executedPulses cp)
      { readSweepState H cp s with ALU_BUS := 0 } w
  unfold orSweepInit
  rw [h3]

/-- C2: every call of genAGCStates clears READ_BUS, MEM_DATA_BUS and
MEM_PARITY_BUS to 0 before any pulse executes, and initializes WRITE_BUS
to the value READ_BUS has after the ALU read sweep, before the ALU-OR
sweep modifies it; hence, as long as the read and ALU-read handlers do
not touch WRITE_BUS, no bus value carries over from one tick to the
next: the result of genAGCStates is independent of the incoming values
of all four buses. -/
theorem genAGCStates_bus_no_carry {ρ : Type} (H : Handlers ρ)
    (cp : List pulseType) (s : AGCState ρ) (r w m q : Nat)
    (hR : WBtransparent H.doexecR) (hA : WBtransparent H.doexecR_ALU) :
    (clearBuses s).READ_BUS = 0 ∧
    (clearBuses s).MEM_DATA_BUS = 0 ∧
    (clearBuses s).MEM_PARITY_BUS = 0 ∧
    (orSweepInit H cp s).WRITE_BUS = (aluSweepState H cp s).READ_BUS ∧
    genAGCStates H cp
        { s with READ_BUS := r, WRITE_BUS := w, MEM_DATA_BUS := m,
                 MEM_PARITY_BUS := q }
      = genAGCStates H cp s := by
  refine ⟨rfl, rfl, rfl, rfl, ?_⟩
  unfold genAGCStates writeSweepState orSweepState
  rw [orSweepInit_fresh H cp s r w m q hR hA]

/-- Witness for C2: at concrete handlers, pulse list, state and bus
values, the hypotheses hold and the conclusion follows by the theorem. -/
theorem genAGCStates_bus_no_carry_witness :
    WBtransparent unitHandlers.doexecR ∧
    WBtransparent unitHandlers.doexecR_ALU ∧
    ((clearBuses unitState).READ_BUS = 0 ∧
     (clearBuses unitState).MEM_DATA_BUS = 0 ∧
     (clearBuses unitState).MEM_PARITY_BUS = 0 ∧
     (orSweepInit unitHandlers [pulseType.P 3] unitState).WRITE_BUS =
       (aluSweepState unitHandlers [pulseType.P 3] unitState).READ_BUS ∧
     genAGCStates unitHandlers [pulseType.P 3]
         { unitState with READ_BUS := 7, WRITE_BUS := 5, MEM_DATA_BUS := 2,
                          MEM_PARITY_BUS := 1 }
       = genAGCStates unitHandlers [pulseType.P 3] unitState) := by
  have hR : WBtransparent unitHandlers.doexecR := fun p s w => rfl
  have hA : WBtransparent unitHandlers.doexecR_ALU := fun p s w => rfl
  exact ⟨hR, hA,
    genAGCStates_bus_no_carry unitHandlers [pulseType.P 3] unitState 7 5 2 1 hR hA⟩

/-- Scanning for the terminator stops exactly at the first NO_PULSE:
the pulses before it are all kept, everything from it on is dropped. -/
theorem takeWhile_until_NO_PULSE (ps tail : List pulseType)
    (h : pulseType.NO_PULSE ∉ ps) :
    (ps ++ pulseType.NO_PULSE :: tail).takeWhile
        (fun p => decide (p ≠ pulseType.NO_PULSE)) = ps := by
  induction ps with
  | nil => simp
  | cons a ps ih =>
      simp only [List.mem_cons, not_or] at h
      have ha : a ≠ pulseType.NO_PULSE := fun hc => h.1 hc.symm
      rw [List.cons_append, List.takeWhile_cons, if_pos (decide_eq_true ha),
        ih h.2]

/-- C3: the modelled glbl_cp list has exactly MAXPULSES entries and is
NO_PULSE-terminated; each dispatch sweep executes exactly the pulses
preceding the first NO_PULSE; and on any pulse list whatsoever a sweep
executes at most MAXPULSES pulses, none of them NO_PULSE. -/
theorem glbl_cp_sweep_exact {ρ : Type}
    (hh : pulseType → AGCState ρ → AGCState ρ) (s : AGCState ρ)
    (ps cp : List pulseType)
    (h1 : pulseType.NO_PULSE ∉ ps) (h2 : ps.length < MAXPULSES) :
    (glbl_cp_model ps).length = MAXPULSES ∧
    pulseType.NO_PULSE ∈ glbl_cp_model ps ∧
    executedPulses (glbl_cp_model ps) = ps ∧
    sweep hh (glbl_cp_model ps) s = List.foldl (fun t p => hh p t) s ps ∧
    (executedPulses cp).length ≤ MAXPULSES ∧
    pulseType.NO_PULSE ∉ executedPulses cp := by
  have hlen : (glbl_cp_model ps).length = MAXPULSES := by
    simp only [glbl_cp_model, List.length_append, List.length_replicate]
    omega
  obtain ⟨k, hk⟩ : ∃ k, MAXPULSES - ps.length = k + 1 :=
    ⟨MAXPULSES - ps.length - 1, by omega⟩
  have hmodel : glbl_cp_model ps =
      ps ++ pulseType.NO_PULSE :: List.replicate k pulseType.NO_PULSE := by
    simp only [glbl_cp_model, hk, List.replicate_succ]
  have hexec : executedPulses (glbl_cp_model ps) = ps := by
    unfold executedPulses
    rw [List.take_of_length_le (le_of_eq hlen)]
    rw [hmodel]
    exact takeWhile_until_NO_PULSE ps _ h1
  refine ⟨hlen, ?_, hexec, ?_, ?_, ?_⟩
  · rw [hmodel]
    exact List.mem_append_right ps (List.mem_cons_self _ _)
  · unfold sweep
    rw [hexec]
  · calc (executedPulses cp).length
        ≤ (cp.take MAXPULSES).length := (List.takeWhile_sublist _).length_le
      _ ≤ MAXPULSES := by
          rw [List.length_take]
          omega
  · intro hmem
    have := List.mem_takeWhile_imp hmem
    simp at this

/-- Witness for C3: a one-pulse list and a terminator-first list, with a
concrete handler and state; the hypotheses hold and the conclusion
follows by the theorem. -/
theorem glbl_cp_sweep_exact_witness :
    pulseType.NO_PULSE ∉ [pulseType.P 0] ∧
    [pulseType.P 0].length < MAXPULSES ∧
    ((glbl_cp_model [pulseType.P 0]).length = MAXPULSES ∧
     pulseType.NO_PULSE ∈ glbl_cp_model [pulseType.P 0] ∧
     executedPulses (glbl_cp_model [pulseType.P 0]) = [pulseType.P 0] ∧
     sweep (fun _ t => t) (glbl_cp_model [pulseType.P 0]) unitState =
       List.foldl (fun t _ => t) unitState [pulseType.P 0] ∧
     (executedPulses [pulseType.NO_PULSE]).length ≤ MAXPULSES ∧
     pulseType.NO_PULSE ∉ executedPulses [pulseType.NO_PULSE]) :=
  ⟨by decide, by decide,
    glbl_cp_sweep_exact (fun _ t => t) unitState [pulseType.P 0]
      [pulseType.NO_PULSE] (by decide) (by decide)⟩

/-- C4: the driver-loop breakpoint check of the source halts the machine
whenever the enabled breakpoint equals the current effective address, at
any timing pulse whatsoever — here at TP5 in the middle of an
instruction — whereas the behavior the claim (and the spec's design
note) describes, modelled by breakpointCheckSpec, would leave RUN
untouched there. -/
theorem breakpoint_halts_mid_instruction :
    breakpointCheck true 0o100 0o100 tpType.TP5 1 = 0 ∧
    breakpointCheckSpec true 0o100 0o100 tpType.TP5 1 1 = 1 := by
  decide

/-- Counterexample for C5: the monitor input variables INST and SCL_ENAB
are statically initialized to 1, not 0, so PURST is not the single
nonzero power-on exception. -/
theorem monInit_not_all_zero :
    monInit.INST ≠ 0 ∧ monInit.SCL_ENAB ≠ 0 := by
  decide

/-- C5 (amended): at power-on the monitor input variables initialize to
0, except PURST, INST and SCL_ENAB which initialize to 1. -/
theorem monInit_values :
    monInit.PURST = 1 ∧ monInit.RUN = 0 ∧ monInit.STEP = 0 ∧
    monInit.INST = 1 ∧ monInit.FCLK = 0 ∧ monInit.SA = 0 ∧
    monInit.SCL_ENAB = 1 := by
  decide

/-- Counterexample for C6: a truncated object file consisting of the
single octal numeral 123 is not well-formed, yet loadMemory issues a
MEM::writeMemory call for it (address 0123 with the stale data value). -/
theorem loadMemory_malformed_writes :
    wellFormedObj [objToken.num 0o123] = false ∧
    loadMemory (some [objToken.num 0o123]) 0 0 = ([(0o123, 0)], true) ∧
    (loadMemory (some [objToken.num 0o123]) 0 0).1 ≠ [] := by
  decide

/-- On a well-formed token stream the record loop terminates and writes
exactly the file's address/data records, whatever the initial values of
the addr and data variables. -/
theorem loadLoop_wellFormed :
    ∀ (n : Nat) (toks : List objToken), toks.length ≤ n →
      wellFormedObj toks = true →
      ∀ a0 d0 : Nat, loadLoop toks a0 d0 = (objPairs toks, true) := by
  intro n
  induction n with
  | zero =>
      intro toks hlen hw a0 d0
      match toks with
      | [] => rfl
      | _ :: _ => simp at hlen
  | succ m ih =>
      intro toks hlen hw a0 d0
      match toks with
      | [] => rfl
      | [objToken.num a] => simp [wellFormedObj] at hw
      | objToken.junk :: _ => simp [wellFormedObj] at hw
      | objToken.num a :: objToken.junk :: _ => simp [wellFormedObj] at hw
      | objToken.num a :: objToken.num v :: rest =>
          have hr : wellFormedObj rest = true := hw
          have hl : rest.length ≤ m := by
            simp only [List.length_cons] at hlen
            omega
          simp only [loadLoop, objPairs, ih rest hl hr a v]

/-- C6 (amended): for a file that cannot be opened, loadMemory reports
the error and returns with no MEM::writeMemory call; for a file that
opens and is a well-formed sequence of octal address/data records, the
loop terminates and writes exactly those records.  (A file that opens
but is malformed can still trigger writes with stale operands, or never
terminate.) -/
theorem loadMemory_bad_file (a0 d0 : Nat) (toks : List objToken)
    (hw : wellFormedObj toks = true) :
    loadMemory none a0 d0 = ([], true) ∧
    loadMemory (some toks) a0 d0 = (objPairs toks, true) :=
  ⟨rfl, loadLoop_wellFormed toks.length toks le_rfl hw a0 d0⟩

/-- Witness for C6 (amended): a concrete two-numeral record file. -/
theorem loadMemory_bad_file_witness :
    wellFormedObj [objToken.num 1, objToken.num 2] = true ∧
    (loadMemory none 0 0 = ([], true) ∧
     loadMemory (some [objToken.num 1, objToken.num 2]) 0 0 =
       (objPairs [objToken.num 1, objToken.num 2], true)) :=
  ⟨by decide, loadMemory_bad_file 0 0 [objToken.num 1, objToken.num 2]
    (by decide)⟩

/-- Counterexample for C7: the commands accept any numeric input without
a range check.  Entering priority 7 makes interrupt() write cell index
6, outside rupt[0..4]; entering pcell 19 (a value the prompt itself
offers) makes incrCntr() write cell index 19, outside pcUp[0..6]. -/
theorem request_lines_out_of_range :
    interrupt 7 (fun _ => 0) 6 = 1 ∧ ¬((6 : Int) < RUPT_CELLS) ∧
    incrCntr 19 (fun _ => 0) 19 = 1 ∧ ¬((19 : Int) < PC_CELLS) := by
  decide

/-- C7 (amended): the interrupt command sets exactly the cell
rupt[p - 1] and the counter commands set exactly pcUp[k] or pcDn[k]; the
code performs no range check, so the index stays within the declared
arrays exactly when the entered value is within the prompted range, as
hypothesized here (priority 1..5, counter cell 0..6). -/
theorem request_lines_in_range (p k : Int) (rupt pcUp pcDn : Int → Nat)
    (hp : 1 ≤ p ∧ p ≤ 5) (hk : 0 ≤ k ∧ k ≤ 6) :
    (0 ≤ p - 1 ∧ p - 1 < RUPT_CELLS) ∧
    interrupt p rupt = Function.update rupt (p - 1) 1 ∧
    (0 ≤ k ∧ k < PC_CELLS) ∧
    incrCntr k pcUp = Function.update pcUp k 1 ∧
    decrCntr k pcDn = Function.update pcDn k 1 := by
  refine ⟨⟨by omega, ?_⟩, ?_, ⟨hk.1, ?_⟩, ?_, ?_⟩
  · show p - 1 < 5
    omega
  · funext j
    simp [interrupt, Function.update_apply]
  · show k < 7
    omega
  · funext j
    simp [incrCntr, Function.update_apply]
  · funext j
    simp [decrCntr, Function.update_apply]

/-- Witness for C7 (amended): priority 3 and counter cell 2. -/
theorem request_lines_in_range_witness :
    ((1 : Int) ≤ 3 ∧ (3 : Int) ≤ 5) ∧ ((0 : Int) ≤ 2 ∧ (2 : Int) ≤ 6) ∧
    ((0 ≤ (3 : Int) - 1 ∧ (3 : Int) - 1 < RUPT_CELLS) ∧
     interrupt 3 (fun _ => 0) = Function.update (fun _ => 0) ((3 : Int) - 1) 1 ∧
     (0 ≤ (2 : Int) ∧ (2 : Int) < PC_CELLS) ∧
     incrCntr 2 (fun _ => 0) = Function.update (fun _ => 0) (2 : Int) 1 ∧
     decrCntr 2 (fun _ => 0) = Function.update (fun _ => 0) (2 : Int) 1) :=
  ⟨⟨by decide, by decide⟩, ⟨by decide, by decide⟩,
    request_lines_in_range 3 2 (fun _ => 0) (fun _ => 0) (fun _ => 0)
      ⟨by decide, by decide⟩ ⟨by decide, by decide⟩⟩

/-- The inner clocking loop performs at least one tick (it is a
do-while loop). -/
theorem innerLoop_pos {σ : Type} (step : σ → σ) (cond : σ → Bool) :
    ∀ (n : Nat) (s : σ), 1 ≤ (innerLoop step cond n s).1 := by
  intro n s
  match n with
  | 0 => simp [innerLoop]
  | 1 => simp [innerLoop]
  | Nat.succ (Nat.succ m) =>
      simp only [innerLoop]
      split
      · omega
      · omega

/-- The inner clocking loop performs at most as many ticks as the batch
counter it starts with. -/
theorem innerLoop_le {σ : Type} (step : σ → σ) (cond : σ → Bool) :
    ∀ (n : Nat) (s : σ), (innerLoop step cond (n + 1) s).1 ≤ n + 1 := by
  intro n
  induction n with
  | zero => intro s; simp [innerLoop]
  | succ m ih =>
      intro s
      simp only [innerLoop, Nat.succ_eq_add_one]
      split
      · have := ih (step s)
        omega
      · omega

/-- C8: started with batch counter 100, the inner clocking loop of main
performs between 1 and 100 ticks before control returns to keyboard
polling, whatever the tick function does and whatever values the
monitor switches take; the counter strictly decreases every iteration,
so the loop always terminates. -/
theorem main_inner_loop_bounded {σ : Type} (step : σ → σ) (cond : σ → Bool)
    (s : σ) :
    1 ≤ (innerLoop step cond 100 s).1 ∧ (innerLoop step cond 100 s).1 ≤ 100 :=
  ⟨innerLoop_pos step cond 100 s, innerLoop_le step cond 99 s⟩

/-- Testing a single-bit octal mask for nonzero is the same as testing
the corresponding bit. -/
theorem and_mask_testBit (n i : Nat) : (n &&& 2 ^ i != 0) = n.testBit i := by
  rw [Nat.and_two_pow]
  cases h : n.testBit i
  · simp
  · simp

/-- C9: MON::displayAGC derives the panel indicator flags from OUT1 by
testing exactly bit 0 for COMP ACTY, bit 2 for UPLINK ACTY, bit 4 for
KEY REL, bit 6 for OPER ERR, and bit 8 for PROG ALM (octal masks 001,
004, 020, 0100, 0400). -/
theorem displayAGC_out1_bits (out1 : Nat) :
    (displayAGCFlags out1).comp = out1.testBit 0 ∧
    (displayAGCFlags out1).upTl = out1.testBit 2 ∧
    (displayAGCFlags out1).keyRels = out1.testBit 4 ∧
    (displayAGCFlags out1).compFail = out1.testBit 6 ∧
    (displayAGCFlags out1).progAlm = out1.testBit 8 :=
  ⟨and_mask_testBit out1 0, and_mask_testBit out1 2, and_mask_testBit out1 4,
   and_mask_testBit out1 6, and_mask_testBit out1 8⟩

/-- C10: at the driver loop's poll point, whenever the timing-pulse
register SG reads TP1 the STEP switch is cleared to 0 — whatever its
value was — and at any other timing state it is left unchanged; so STEP
never remains set past the first poll that observes TP1. -/
theorem step_cleared_at_TP1 (st : Nat) (sg : tpType) :
    stepSwitchPoll st tpType.TP1 = 0 ∧
    (sg ≠ tpType.TP1 → stepSwitchPoll st sg = st) := by
  constructor
  · by_cases h : st = 0 <;> simp [stepSwitchPoll, h]
  · intro h
    simp [stepSwitchPoll, h]

/-- Witness for C10: STEP set to 1 is cleared at TP1 and kept at TP5. -/
theorem step_cleared_at_TP1_witness :
    stepSwitchPoll 1 tpType.TP1 = 0 ∧ stepSwitchPoll 1 tpType.TP5 = 1 :=
  ⟨(step_cleared_at_TP1 1 tpType.TP5).1,
   (step_cleared_at_TP1 1 tpType.TP5).2 (by decide)⟩
